import Mathlib

/-!
Shallow embedding of `src/cloud/amazon/sts_assume_role.py`: a module that
assumes an AWS role via STS and republishes the temporary credentials.

The embedding models:
* the request map built by `assume_role_policy` as an association list in
  insertion order (`assume_role_args`);
* the STS client as a function from the request map to either a success
  payload or a `ClientError` message;
* `module.exit_json` / `module.fail_json` as the two constructors of
  `ModuleResult` (both terminate the module run in Ansible);
* `main` as a function of an environment (boto3 availability, resolved
  region, result of `boto3_conn`) and the raw module parameters; it also
  returns the list of requests sent through `client.assume_role`, so that
  call-count properties can be stated.
-/

namespace StsAssumeRole

/-- Values placed in the keyword-argument map sent to `client.assume_role`:
every parameter is a string except `DurationSeconds`, declared with
`type='int'` in the argument spec. -/
inductive AwsVal where
  | str : String → AwsVal
  | int : Int → AwsVal
deriving Repr, DecidableEq

/-- The keyword-argument map `args`, in insertion order. -/
abbrev Args := List (String × AwsVal)

/-- First-match lookup in an association list (Python `args['k']` /
`'k' in args` semantics; keys built by the module are distinct). -/
def lookupKey : Args → String → Option AwsVal
  | [], _ => none
  | (k, v) :: rest, key => if k = key then some v else lookupKey rest key

/-- Module parameters after `AnsibleModule` validation: the two required
options are present, the five optional ones default to `None`. -/
structure Params where
  role_arn : String
  role_session_name : String
  policy : Option String
  duration_seconds : Option Int
  external_id : Option String
  mfa_serial_number : Option String
  mfa_token : Option String
deriving Repr, DecidableEq

/-- Parameters as handed to `AnsibleModule`, before the argument-spec check:
any field may be absent. -/
structure RawParams where
  role_arn : Option String
  role_session_name : Option String
  policy : Option String
  duration_seconds : Option Int
  external_id : Option String
  mfa_serial_number : Option String
  mfa_token : Option String
deriving Repr, DecidableEq

/-- The validation `AnsibleModule(argument_spec=argument_spec)` performs on
the module's own options: `role_arn` and `role_session_name` are
`required=True`; the remaining five options are `required=False` with
`default=None` and carry no range or pairing constraint. -/
def check_required (raw : RawParams) : Option Params :=
  match raw.role_arn, raw.role_session_name with
  | some ra, some rsn =>
      some { role_arn := ra, role_session_name := rsn, policy := raw.policy,
             duration_seconds := raw.duration_seconds,
             external_id := raw.external_id,
             mfa_serial_number := raw.mfa_serial_number,
             mfa_token := raw.mfa_token }
  | _, _ => none

/-- The `Credentials` sub-object of a successful `assume_role` payload.
`Expiration` is a provider timestamp, carried opaquely as a string. -/
structure Credentials where
  AccessKeyId : String
  SecretAccessKey : String
  SessionToken : String
  Expiration : String
deriving Repr, DecidableEq

/-- The `AssumedRoleUser` sub-object of a successful `assume_role` payload. -/
structure AssumedRoleUser where
  Arn : String
  AssumedRoleId : String
deriving Repr, DecidableEq

/-- A well-formed success payload of `client.assume_role`. -/
structure AssumeRolePayload where
  credentials : Credentials
  assumedRoleUser : AssumedRoleUser
deriving Repr, DecidableEq

/-- The STS client collaborator: its single `assume_role` operation either
returns a payload or raises `ClientError`, modelled by its message. -/
abbrev Client := Args → Except String AssumeRolePayload

/-- A value of the JSON result object passed to `exit_json`. -/
inductive JVal where
  | str : String → JVal
  | bool : Bool → JVal
  | obj : List (String × String) → JVal
deriving Repr, DecidableEq

/-- Outcome of a module run: `exit_json` with a result object, or
`fail_json` with a message.  Both terminate the run. -/
inductive ModuleResult where
  | exited : List (String × JVal) → ModuleResult
  | failed : String → ModuleResult
deriving Repr, DecidableEq

/-- The keyword-argument map built at the top of `assume_role_policy`:
`RoleArn` and `RoleSessionName` unconditionally, then each optional
parameter added under its AWS key only when it is not `None`, in source
order. -/
def assume_role_args (p : Params) : Args :=
  let args : Args := [("RoleArn", .str p.role_arn),
                      ("RoleSessionName", .str p.role_session_name)]
  let args := args ++ (match p.policy with
    | some policy => [("Policy", AwsVal.str policy)]
    | none => [])
  let args := args ++ (match p.duration_seconds with
    | some duration_seconds => [("DurationSeconds", AwsVal.int duration_seconds)]
    | none => [])
  let args := args ++ (match p.external_id with
    | some e => [("ExternalId", AwsVal.str e)]
    | none => [])
  let args := args ++ (match p.mfa_serial_number with
    | some m => [("SerialNumber", AwsVal.str m)]
    | none => [])
  let args := args ++ (match p.mfa_token with
    | some t => [("TokenCode", AwsVal.str t)]
    | none => [])
  args

/-- `assume_role_policy(client, module)`: build the argument map, call
`client.assume_role(**args)` once; on `ClientError` report
`fail_json(msg=e)`, on success build `sts_creds` and `sts_user` and report
`exit_json(changed=True, sts_creds=..., sts_user=...)`.  The second
component records the requests sent through the client (the single call
site executes exactly once per run). -/
def assume_role_policy (client : Client) (p : Params) : ModuleResult × List Args :=
  let args := assume_role_args p
  match client args with
  | .error e => (.failed e, [args])
  | .ok assumed_role =>
      let sts_creds : List (String × String) :=
        [("access_key", assumed_role.credentials.AccessKeyId),
         ("secret_key", assumed_role.credentials.SecretAccessKey),
         ("session_token", assumed_role.credentials.SessionToken),
         ("expiration", assumed_role.credentials.Expiration)]
      let sts_user : List (String × String) :=
        [("arn", assumed_role.assumedRoleUser.Arn),
         ("assume_role_id", assumed_role.assumedRoleUser.AssumedRoleId)]
      (.exited [("changed", .bool true),
                ("sts_creds", .obj sts_creds),
                ("sts_user", .obj sts_user)],
       [args])

/-- Environment of a `main` run: whether `import boto3` succeeded, the
region resolved by `get_aws_connection_info`, and the result of
constructing the STS client with `boto3_conn` (which may raise
`ClientError`). -/
structure Env where
  has_boto3 : Bool
  region : Option String
  boto3_conn : Except String Client

/-- `main()`: build the argument spec and `AnsibleModule` (validating the
parameters), fail if boto3 is missing, resolve connection info, fail if no
region, construct the client (failing on `ClientError`), then run
`assume_role_policy`. -/
def main (env : Env) (raw : RawParams) : ModuleResult × List Args :=
  match check_required raw with
  | none => (.failed "missing required arguments", [])
  | some module_params =>
    if env.has_boto3 = false then
      (.failed "boto3 required for this module", [])
    else
      match env.region with
      | some _ =>
        match env.boto3_conn with
        | .error e => (.failed e, [])
        | .ok client => assume_role_policy client module_params
      | none => (.failed "region must be specified", [])

/-- A concrete payload used by the witnesses. -/
def payload0 : AssumeRolePayload :=
  { credentials := { AccessKeyId := "AK1", SecretAccessKey := "SK1",
                     SessionToken := "TOK1", Expiration := "2026-01-01T00:00:00Z" },
    assumedRoleUser := { Arn := "arn:aws:sts::123456789012:assumed-role/someRole/someRoleSession",
                         AssumedRoleId := "AROAEXAMPLE:someRoleSession" } }

/-- A concrete client that always succeeds with `payload0`. -/
def client0 : Client := fun _ => .ok payload0

/-- A concrete well-configured environment. -/
def env0 : Env :=
  { has_boto3 := true, region := some "us-east-1", boto3_conn := .ok client0 }

/-- Concrete required-only parameters. -/
def params0 : Params :=
  { role_arn := "arn:aws:iam::123456789012:role/someRole",
    role_session_name := "someRoleSession",
    policy := none, duration_seconds := none, external_id := none,
    mfa_serial_number := none, mfa_token := none }

/-- Concrete raw parameters with `duration_seconds=7200`, outside the
900-3600 range documented for the provider. -/
def raw7200 : RawParams :=
  { role_arn := some "arn:aws:iam::123456789012:role/someRole",
    role_session_name := some "someRoleSession",
    policy := none, duration_seconds := some 7200, external_id := none,
    mfa_serial_number := none, mfa_token := none }

/-- Concrete validated parameters with `duration_seconds=7200`. -/
def params7200 : Params :=
  { role_arn := "arn:aws:iam::123456789012:role/someRole",
    role_session_name := "someRoleSession",
    policy := none, duration_seconds := some 7200, external_id := none,
    mfa_serial_number := none, mfa_token := none }

/-- Concrete raw parameters with only the required options set. -/
def raw0 : RawParams :=
  { role_arn := some "arn:aws:iam::123456789012:role/someRole",
    role_session_name := some "someRoleSession",
    policy := none, duration_seconds := none, external_id := none,
    mfa_serial_number := none, mfa_token := none }

/-- Concrete validated parameters with an MFA serial number but no token. -/
def paramsMfa : Params :=
  { role_arn := "arn:aws:iam::123456789012:role/someRole",
    role_session_name := "someRoleSession",
    policy := none, duration_seconds := none, external_id := none,
    mfa_serial_number := some "arn:aws:iam::123456789012:mfa/user", mfa_token := none }

/-- A concrete client whose `assume_role` raises a `ClientError`. -/
def clientFail : Client := fun _ => .error "AccessDenied: not authorized to perform sts:AssumeRole"

/-- A concrete environment whose connection info yields no region. -/
def envNoRegion : Env :=
  { has_boto3 := true, region := none, boto3_conn := .ok client0 }

/-- A concrete environment in which boto3 failed to import. -/
def envNoBoto3 : Env :=
  { has_boto3 := false, region := some "us-east-1", boto3_conn := .ok client0 }

/-- Helper: whatever the client answers, one run of `assume_role_policy`
sends exactly the one request `assume_role_args p` through the client. -/
theorem assume_role_policy_trace_eq (client : Client) (p : Params) :
    (assume_role_policy client p).2 = [assume_role_args p] := by
  cases h : client (assume_role_args p) <;> simp [assume_role_policy, h]

/-- Claim C2: with `role_arn` and `role_session_name` set and every optional
parameter `None`, the request map built by `assume_role_policy` is exactly
`RoleArn` and `RoleSessionName` — no optional key is present. -/
theorem required_only_request (ra rsn : String) :
    assume_role_args { role_arn := ra, role_session_name := rsn, policy := none,
                       duration_seconds := none, external_id := none,
                       mfa_serial_number := none, mfa_token := none } =
      [("RoleArn", AwsVal.str ra), ("RoleSessionName", AwsVal.str rsn)] := rfl

/-- Claim C3: each non-null optional parameter appears in the request under
its provider-mapped key with exactly the given value, and each null optional
parameter is absent from the request entirely (its key occurs iff the
parameter is non-null; the list has no null values by construction). -/
theorem optional_request_mapping (p : Params) :
    lookupKey (assume_role_args p) "Policy" = Option.map AwsVal.str p.policy ∧
    lookupKey (assume_role_args p) "DurationSeconds" = Option.map AwsVal.int p.duration_seconds ∧
    lookupKey (assume_role_args p) "ExternalId" = Option.map AwsVal.str p.external_id ∧
    lookupKey (assume_role_args p) "SerialNumber" = Option.map AwsVal.str p.mfa_serial_number ∧
    lookupKey (assume_role_args p) "TokenCode" = Option.map AwsVal.str p.mfa_token ∧
    ("Policy" ∈ (assume_role_args p).map Prod.fst ↔ p.policy.isSome) ∧
    ("DurationSeconds" ∈ (assume_role_args p).map Prod.fst ↔ p.duration_seconds.isSome) ∧
    ("ExternalId" ∈ (assume_role_args p).map Prod.fst ↔ p.external_id.isSome) ∧
    ("SerialNumber" ∈ (assume_role_args p).map Prod.fst ↔ p.mfa_serial_number.isSome) ∧
    ("TokenCode" ∈ (assume_role_args p).map Prod.fst ↔ p.mfa_token.isSome) := by
  obtain ⟨ra, rsn, pol, dur, ext, sn, tok⟩ := p
  cases pol <;> cases dur <;> cases ext <;> cases sn <;> cases tok <;>
    simp [assume_role_args, lookupKey]

/-- Claim C4: when the client's `assume_role` returns a well-formed success
payload, `assume_role_policy` exits with `changed=True`, `sts_creds` mapping
`access_key`/`secret_key`/`session_token`/`expiration` to the payload's
`Credentials` fields, and `sts_user` mapping `arn`/`assume_role_id` to the
payload's `AssumedRoleUser` fields — values copied untransformed. -/
theorem success_outcome (client : Client) (p : Params) (payload : AssumeRolePayload)
    (h : client (assume_role_args p) = .ok payload) :
    assume_role_policy client p =
      (.exited [("changed", .bool true),
                ("sts_creds", .obj [("access_key", payload.credentials.AccessKeyId),
                                    ("secret_key", payload.credentials.SecretAccessKey),
                                    ("session_token", payload.credentials.SessionToken),
                                    ("expiration", payload.credentials.Expiration)]),
                ("sts_user", .obj [("arn", payload.assumedRoleUser.Arn),
                                   ("assume_role_id", payload.assumedRoleUser.AssumedRoleId)])],
       [assume_role_args p]) := by
  simp [assume_role_policy, h]

/-- Witness for claim C4 at `client0`, `params0`, `payload0`. -/
theorem success_outcome_witness :
    client0 (assume_role_args params0) = Except.ok payload0 ∧
    assume_role_policy client0 params0 =
      (ModuleResult.exited
        [("changed", JVal.bool true),
         ("sts_creds", JVal.obj [("access_key", "AK1"), ("secret_key", "SK1"),
                                 ("session_token", "TOK1"),
                                 ("expiration", "2026-01-01T00:00:00Z")]),
         ("sts_user", JVal.obj
            [("arn", "arn:aws:sts::123456789012:assumed-role/someRole/someRoleSession"),
             ("assume_role_id", "AROAEXAMPLE:someRoleSession")])],
       [assume_role_args params0]) :=
  ⟨rfl, success_outcome client0 params0 payload0 rfl⟩

/-- Claim C5: when the client's `assume_role` raises a `ClientError` with
message M, `assume_role_policy` fails with exactly M and carries no
credential or identity fields. -/
theorem fault_outcome (client : Client) (p : Params) (m : String)
    (h : client (assume_role_args p) = .error m) :
    assume_role_policy client p = (.failed m, [assume_role_args p]) := by
  simp [assume_role_policy, h]

/-- Witness for claim C5 at `clientFail`, `params0`. -/
theorem fault_outcome_witness :
    clientFail (assume_role_args params0) =
      Except.error "AccessDenied: not authorized to perform sts:AssumeRole" ∧
    assume_role_policy clientFail params0 =
      (ModuleResult.failed "AccessDenied: not authorized to perform sts:AssumeRole",
       [assume_role_args params0]) :=
  ⟨rfl, fault_outcome clientFail params0 _ rfl⟩

/-- Claim C6: with `mfa_serial_number` set and `mfa_token` `None`, the
request is still sent to the client (the run performs its one call) with
`SerialNumber` present and no `TokenCode` key; no local validation error is
raised for the unpaired MFA fields. -/
theorem mfa_serial_without_token (client : Client) (p : Params) (sn : String)
    (hs : p.mfa_serial_number = some sn) (ht : p.mfa_token = none) :
    lookupKey (assume_role_args p) "SerialNumber" = some (AwsVal.str sn) ∧
    "TokenCode" ∉ (assume_role_args p).map Prod.fst ∧
    (assume_role_policy client p).2 = [assume_role_args p] := by
  refine ⟨?_, ?_, assume_role_policy_trace_eq client p⟩ <;>
  · obtain ⟨ra, rsn, pol, dur, ext, sn2, tok⟩ := p
    simp only at hs ht
    subst hs ht
    cases pol <;> cases dur <;> cases ext <;>
      simp [assume_role_args, lookupKey]

/-- Witness for claim C6 at `client0`, `paramsMfa`. -/
theorem mfa_serial_without_token_witness :
    paramsMfa.mfa_serial_number = some "arn:aws:iam::123456789012:mfa/user" ∧
    paramsMfa.mfa_token = none ∧
    (lookupKey (assume_role_args paramsMfa) "SerialNumber" =
        some (AwsVal.str "arn:aws:iam::123456789012:mfa/user") ∧
     "TokenCode" ∉ (assume_role_args paramsMfa).map Prod.fst ∧
     (assume_role_policy client0 paramsMfa).2 = [assume_role_args paramsMfa]) :=
  ⟨rfl, rfl, mfa_serial_without_token client0 paramsMfa _ rfl rfl⟩

/-- Claim C7: on every run of `main` the client's `assume_role` is invoked
at most once, and exactly once when no configuration error aborts the run
first (required parameters present, boto3 importable, region resolved,
client construction succeeded). -/
theorem client_called_at_most_once (env : Env) (raw : RawParams) :
    (main env raw).2.length ≤ 1 ∧
    ((check_required raw).isSome → env.has_boto3 = true →
      env.region.isSome → (∃ c, env.boto3_conn = Except.ok c) →
      (main env raw).2.length = 1) := by
  obtain ⟨hb3, reg, conn⟩ := env
  rcases hcr : check_required raw with _ | p <;>
    cases hb3 <;>
      rcases reg with _ | r <;>
        rcases conn with e | c <;>
          simp [main, hcr, assume_role_policy_trace_eq]

/-- Witness for claim C7 at `env0`, `raw0`. -/
theorem client_called_at_most_once_witness :
    (main env0 raw0).2.length ≤ 1 ∧ (main env0 raw0).2.length = 1 :=
  ⟨(client_called_at_most_once env0 raw0).1,
   (client_called_at_most_once env0 raw0).2 rfl rfl rfl ⟨client0, rfl⟩⟩

/-- Claim C8: when no region can be established, `main` fails with
"region must be specified" and no assume-role call is attempted. -/
theorem region_must_be_specified (env : Env) (raw : RawParams) (p : Params)
    (hp : check_required raw = some p) (hb : env.has_boto3 = true)
    (hr : env.region = none) :
    main env raw = (.failed "region must be specified", []) := by
  simp [main, hp, hb, hr]

/-- Witness for claim C8 at `envNoRegion`, `raw0`. -/
theorem region_must_be_specified_witness :
    check_required raw0 = some params0 ∧
    main envNoRegion raw0 = (ModuleResult.failed "region must be specified", []) :=
  ⟨rfl, region_must_be_specified envNoRegion raw0 params0 rfl rfl rfl⟩

/-- Claim C9: when boto3 is not importable, `main` fails with
"boto3 required for this module" whatever the region and client
construction would have yielded (so before connection info is consulted and
before any client is used), and no assume-role call is attempted. -/
theorem boto3_required (env : Env) (raw : RawParams) (p : Params)
    (hp : check_required raw = some p) (hb : env.has_boto3 = false) :
    main env raw = (.failed "boto3 required for this module", []) := by
  simp [main, hp, hb]

/-- Witness for claim C9 at `envNoBoto3`, `raw0`. -/
theorem boto3_required_witness :
    check_required raw0 = some params0 ∧ envNoBoto3.has_boto3 = false ∧
    main envNoBoto3 raw0 = (ModuleResult.failed "boto3 required for this module", []) :=
  ⟨rfl, rfl, boto3_required envNoBoto3 raw0 params0 rfl rfl⟩

/-- Claim C10: every successful run exits with a result whose keys are
exactly `changed`, `sts_creds`, `sts_user`; `sts_creds` has exactly the
keys `access_key`, `secret_key`, `session_token`, `expiration`; `sts_user`
has exactly the keys `arn` and `assume_role_id` (spelled `assume_role_id`,
not `assumed_role_id`). -/
theorem result_field_shape (client : Client) (p : Params) (payload : AssumeRolePayload)
    (h : client (assume_role_args p) = .ok payload) :
    ∃ sts_creds sts_user,
      (assume_role_policy client p).1 =
        ModuleResult.exited [("changed", JVal.bool true),
                             ("sts_creds", JVal.obj sts_creds),
                             ("sts_user", JVal.obj sts_user)] ∧
      sts_creds.map Prod.fst = ["access_key", "secret_key", "session_token", "expiration"] ∧
      sts_user.map Prod.fst = ["arn", "assume_role_id"] := by
  refine ⟨[("access_key", payload.credentials.AccessKeyId),
           ("secret_key", payload.credentials.SecretAccessKey),
           ("session_token", payload.credentials.SessionToken),
           ("expiration", payload.credentials.Expiration)],
          [("arn", payload.assumedRoleUser.Arn),
           ("assume_role_id", payload.assumedRoleUser.AssumedRoleId)], ?_, rfl, rfl⟩
  simp [assume_role_policy, h]

/-- Witness for claim C10 at `client0`, `params0`, `payload0`. -/
theorem result_field_shape_witness :
    client0 (assume_role_args params0) = Except.ok payload0 ∧
    (∃ sts_creds sts_user,
      (assume_role_policy client0 params0).1 =
        ModuleResult.exited [("changed", JVal.bool true),
                             ("sts_creds", JVal.obj sts_creds),
                             ("sts_user", JVal.obj sts_user)] ∧
      sts_creds.map Prod.fst = ["access_key", "secret_key", "session_token", "expiration"] ∧
      sts_user.map Prod.fst = ["arn", "assume_role_id"]) :=
  ⟨rfl, result_field_shape client0 params0 payload0 rfl⟩

/-- Claim C1 counterexample: with `duration_seconds=7200` (outside the
900-3600 range) and a well-configured environment, the run is NOT rejected
before the client call — the client's assume-role operation is invoked,
with `DurationSeconds=7200` in the request. -/
theorem duration_7200_client_invoked :
    (main env0 raw7200).2 =
      [[("RoleArn", AwsVal.str "arn:aws:iam::123456789012:role/someRole"),
        ("RoleSessionName", AwsVal.str "someRoleSession"),
        ("DurationSeconds", AwsVal.int 7200)]] := rfl

/-- Claim C1 amended: a `duration_seconds` value outside 900-3600 is not
rejected locally — no range validation exists — and when no configuration
error aborts the run the request is sent to the client exactly once with
`DurationSeconds` equal to the given value. -/
theorem duration_out_of_range_passed_through (env : Env) (raw : RawParams)
    (p : Params) (c : Client) (r : String) (d : Int)
    (hp : check_required raw = some p) (hd : p.duration_seconds = some d)
    (hb : env.has_boto3 = true) (hr : env.region = some r)
    (hc : env.boto3_conn = Except.ok c) :
    (main env raw).2 = [assume_role_args p] ∧
    lookupKey (assume_role_args p) "DurationSeconds" = some (AwsVal.int d) := by
  constructor
  · simp [main, hp, hb, hr, hc, assume_role_policy_trace_eq]
  · obtain ⟨ra, rsn, pol, dur, ext, sn, tok⟩ := p
    simp only at hd
    subst hd
    cases pol <;> cases ext <;> cases sn <;> cases tok <;>
      simp [assume_role_args, lookupKey]

/-- Witness for the amended claim C1 at `env0`, `raw7200`, `d = 7200`. -/
theorem duration_out_of_range_passed_through_witness :
    (main env0 raw7200).2 = [assume_role_args params7200] ∧
    lookupKey (assume_role_args params7200) "DurationSeconds" = some (AwsVal.int 7200) :=
  duration_out_of_range_passed_through env0 raw7200 params7200 client0
    "us-east-1" 7200 rfl rfl rfl rfl rfl

end StsAssumeRole
